import Mathlib

/-!
Shallow embedding of the core data pipeline of `parent-illness-absences`:
the Recoder (`minimal_recode` in src/data/ipums_cps.py), the Parent
Classifier and Rate Aggregator (`make_parent_flags`,
`_aggregate_monthly_rates` in src/features/parent_flags.py), and the Period
Tagger / DiD model builder (`_make_periods`, `run_monthlevel_ols` in
src/analysis/did_model.py).

Tables are modelled as a schema (which columns are present) plus a list of
rows; a cell is an integer-coded value, a null (pandas NA/NaN), or an
unparseable entry (which `pd.to_numeric(errors="coerce")` turns into a
null).  Python exceptions raised when an absent column is accessed are
modelled by `Except MissingColumnError`.
-/

namespace CPS

/-- One cell of a raw pandas column: an integer-coded value, a null
(NA/NaN), or a malformed entry that does not parse as a number. -/
inductive Cell where
  | iv : Int → Cell
  | na : Cell
  | junk : Cell
deriving DecidableEq, Repr

/-- Numeric view of a cell, as produced by `pd.to_numeric(errors="coerce")`:
integers parse to themselves, nulls and malformed entries give null. -/
def toNum : Cell → Option Int
  | .iv n => some n
  | .na => none
  | .junk => none

/-- `pd.to_numeric(col, errors="coerce").astype("Int64")` on one cell:
parseable values stay, everything else becomes a null. -/
def coerceCell (c : Cell) : Cell :=
  match toNum c with
  | some n => .iv n
  | none => .na

/-- One record (person-month row).  Fields that a stage has not yet derived
simply hold `Cell.na` and are ignored while their schema flag is false. -/
structure Row where
  YEAR : Cell := Cell.na
  MONTH : Cell := Cell.na
  STATEFIP : Cell := Cell.na
  AGE : Cell := Cell.na
  SEX : Cell := Cell.na
  EDUC : Cell := Cell.na
  EMPSTAT : Cell := Cell.na
  NCHILD : Cell := Cell.na
  NCHLT5 : Cell := Cell.na
  MOMLOC : Cell := Cell.na
  POPLOC : Cell := Cell.na
  ABSENT : Cell := Cell.na
  WHYABSNT : Cell := Cell.na
  own_ill_absent : Cell := Cell.na
  is_parent : Cell := Cell.na
  has_child_u5 : Cell := Cell.na
  P1 : Cell := Cell.na
  P2 : Cell := Cell.na
  P3 : Cell := Cell.na
deriving DecidableEq, Repr

/-- Which columns the table has (`c in df.columns`). -/
structure Schema where
  YEAR : Bool := false
  MONTH : Bool := false
  STATEFIP : Bool := false
  AGE : Bool := false
  SEX : Bool := false
  EDUC : Bool := false
  EMPSTAT : Bool := false
  NCHILD : Bool := false
  NCHLT5 : Bool := false
  MOMLOC : Bool := false
  POPLOC : Bool := false
  ABSENT : Bool := false
  WHYABSNT : Bool := false
  own_ill_absent : Bool := false
  is_parent : Bool := false
  has_child_u5 : Bool := false
  P1 : Bool := false
  P2 : Bool := false
  P3 : Bool := false
deriving DecidableEq, Repr

/-- A pandas DataFrame: present columns plus the row data. -/
structure Table where
  schema : Schema
  rows : List Row
deriving DecidableEq, Repr

/-- Error signalled when code accesses a column that is entirely absent
from the table (`df[c]` raises `KeyError`, and `df.get(c)` hands back a
scalar null whose use then raises); the spec calls this signal
`MissingColumnError`, carrying the missing column's name. -/
inductive MissingColumnError where
  | missing : String → MissingColumnError
deriving DecidableEq, Repr

/-! ## Recoder: `IpumsCpsClient.minimal_recode` (src/data/ipums_cps.py) -/

/-- One iteration of a coercion loop of `minimal_recode`:
`if c in df.columns: df[c] = pd.to_numeric(df[c], errors="coerce")...`. -/
def coerceIf (b : Bool) (c : Cell) : Cell :=
  if b then coerceCell c else c

/-- The two coercion loops of `minimal_recode`: every listed column that is
present is re-typed with `pd.to_numeric(errors="coerce").astype("Int64")`;
absent columns are skipped (`if c in df.columns`). -/
def coerceRow (s : Schema) (r : Row) : Row :=
  { r with
    YEAR := coerceIf s.YEAR r.YEAR
    MONTH := coerceIf s.MONTH r.MONTH
    STATEFIP := coerceIf s.STATEFIP r.STATEFIP
    AGE := coerceIf s.AGE r.AGE
    SEX := coerceIf s.SEX r.SEX
    EDUC := coerceIf s.EDUC r.EDUC
    EMPSTAT := coerceIf s.EMPSTAT r.EMPSTAT
    NCHILD := coerceIf s.NCHILD r.NCHILD
    NCHLT5 := coerceIf s.NCHLT5 r.NCHLT5
    MOMLOC := coerceIf s.MOMLOC r.MOMLOC
    POPLOC := coerceIf s.POPLOC r.POPLOC
    ABSENT := coerceIf s.ABSENT r.ABSENT
    WHYABSNT := coerceIf s.WHYABSNT r.WHYABSNT }

/-- `((df["ABSENT"].fillna(0) == 1) & (df["WHYABSNT"].isin([10]))).astype(int)`
on one row: nulls in ABSENT count as 0, a null WHYABSNT is in no code set. -/
def ownIllCell (r : Row) : Cell :=
  .iv (if (toNum r.ABSENT).getD 0 = 1 ∧ toNum r.WHYABSNT = some 10 then 1 else 0)

/-- `minimal_recode(df)` including its effect on the caller's table: the
result is a pair of the call's outcome and the state of the argument table
after the call.  The function coerces the listed columns in place, then
derives `own_ill_absent`; accessing `df["ABSENT"]` / `df["WHYABSNT"]` when
the column is absent raises, after the coercion loops have already run.
The source has no `df.copy()`, so the table handed back *is* the caller's
(now modified) table. -/
def minimal_recode_io (t : Table) :
    Except MissingColumnError Table × Table :=
  let t1 : Table := { schema := t.schema, rows := t.rows.map (coerceRow t.schema) }
  if t.schema.ABSENT = false then
    (.error (.missing "ABSENT"), t1)
  else if t.schema.WHYABSNT = false then
    (.error (.missing "WHYABSNT"), t1)
  else
    let t2 : Table :=
      { schema := { t1.schema with own_ill_absent := true }
        rows := t1.rows.map (fun r => { r with own_ill_absent := ownIllCell r }) }
    (.ok t2, t2)

/-- The value `minimal_recode` returns (or the error it raises). -/
def minimal_recode (t : Table) : Except MissingColumnError Table :=
  (minimal_recode_io t).1

/-- The caller's table after `minimal_recode` ran on it. -/
def minimal_recode_mutated (t : Table) : Table :=
  (minimal_recode_io t).2

/-! ## Parent Classifier: `make_parent_flags` (src/features/parent_flags.py) -/

/-- Body of `make_parent_flags` on one row: each contributing field is read
through `pd.to_numeric(errors="coerce").fillna(0)` (so a null or malformed
cell counts as 0), then
`is_parent = ((nch > 0) | (momloc > 0) | (poploc > 0)).astype(int)` and
`has_child_u5 = (nclt5 > 0).astype(int)`.  The contributing columns
themselves are left untouched (the coerced series are locals). -/
def parentFlagsRow (r : Row) : Row :=
  let nch := (toNum r.NCHILD).getD 0
  let momloc := (toNum r.MOMLOC).getD 0
  let poploc := (toNum r.POPLOC).getD 0
  let nclt5 := (toNum r.NCHLT5).getD 0
  { r with
    is_parent := .iv (if nch > 0 ∨ momloc > 0 ∨ poploc > 0 then 1 else 0)
    has_child_u5 := .iv (if nclt5 > 0 then 1 else 0) }

/-- `make_parent_flags(df)`: works on `df.copy()`, so it never touches the
caller's table.  When a contributing column is entirely absent,
`df.get(c)` yields a scalar null and the subsequent `.fillna` raises (the
columns are read in source order NCHILD, MOMLOC, POPLOC, NCHLT5). -/
def make_parent_flags (t : Table) : Except MissingColumnError Table :=
  if t.schema.NCHILD = false then .error (.missing "NCHILD")
  else if t.schema.MOMLOC = false then .error (.missing "MOMLOC")
  else if t.schema.POPLOC = false then .error (.missing "POPLOC")
  else if t.schema.NCHLT5 = false then .error (.missing "NCHLT5")
  else
    .ok { schema := { t.schema with is_parent := true, has_child_u5 := true }
          rows := t.rows.map parentFlagsRow }

/-- `make_parent_flags(df)` together with the state of the caller's table
after the call: thanks to the leading `df = df.copy()`, the input is
returned unchanged whatever happens. -/
def make_parent_flags_io (t : Table) :
    Except MissingColumnError Table × Table :=
  (make_parent_flags t, t)

/-! ## Period Tagger: `_make_periods` (src/analysis/did_model.py) -/

/-- `((y >= 1994) & (y <= 2007)).astype(int)` on one year value; a null
year (NaN after `to_numeric`) compares false on both sides. -/
def p1val : Option Int → Int
  | some v => if 1994 ≤ v ∧ v ≤ 2007 then 1 else 0
  | none => 0

/-- `((y >= 2008) & (y <= 2019)).astype(int)` on one year value. -/
def p2val : Option Int → Int
  | some v => if 2008 ≤ v ∧ v ≤ 2019 then 1 else 0
  | none => 0

/-- `(y >= 2020).astype(int)` on one year value. -/
def p3val : Option Int → Int
  | some v => if 2020 ≤ v then 1 else 0
  | none => 0

/-- `_make_periods` on one row: `y = pd.to_numeric(df["YEAR"],
errors="coerce")`, then the three indicator columns. -/
def makePeriodsRow (r : Row) : Row :=
  let y := toNum r.YEAR
  { r with P1 := .iv (p1val y), P2 := .iv (p2val y), P3 := .iv (p3val y) }

/-- `_make_periods(df)` (with its default `year_col="YEAR"`): copies the
table, reads the year column (raising if it is absent) and adds the three
period indicator columns. -/
def make_periods (t : Table) : Except MissingColumnError Table :=
  if t.schema.YEAR = false then .error (.missing "YEAR")
  else
    .ok { schema := { t.schema with P1 := true, P2 := true, P3 := true }
          rows := t.rows.map makePeriodsRow }

/-! ## Rate Aggregator: `_aggregate_monthly_rates` (src/features/parent_flags.py) -/

/-- The eligibility mask
`(emp.isin([10, 12])) & (age.between(25, 49))`, where `emp` and `age` are
the EMPSTAT and AGE columns after `to_numeric(errors="coerce").fillna(0)`
(`between` is inclusive on both ends). -/
def eligibleRow (r : Row) : Bool :=
  decide ((((toNum r.EMPSTAT).getD 0 = 10 ∨ (toNum r.EMPSTAT).getD 0 = 12)) ∧
    (25 ≤ (toNum r.AGE).getD 0 ∧ (toNum r.AGE).getD 0 ≤ 49))

/-- Group key of a row for `groupby(["YEAR", "MONTH", "is_parent"])`; rows
in which any key cell is null are dropped by pandas (default
`dropna=True`), which the `none` result models. -/
def rowKey (r : Row) : Option (Int × Int × Int) :=
  match toNum r.YEAR, toNum r.MONTH, toNum r.is_parent with
  | some y, some m, some p => some (y, m, p)
  | _, _, _ => none

/-- Ascending lexicographic order on group keys, the order in which pandas
`groupby` (default `sort=True`) emits the groups. -/
def keyLe (a b : Int × Int × Int) : Prop :=
  a.1 < b.1 ∨ (a.1 = b.1 ∧ (a.2.1 < b.2.1 ∨ (a.2.1 = b.2.1 ∧ a.2.2 ≤ b.2.2)))

instance : DecidableRel keyLe := fun a b => by
  unfold keyLe; infer_instance

/-- Mean of a column over one group, as `g["own_ill_absent"].mean()`
computes it: null cells are skipped, and a group with no non-null value
gets a null mean. -/
def groupMean (cells : List Cell) : Option ℚ :=
  let xs := cells.filterMap toNum
  if xs.isEmpty then none
  else some ((xs.map (fun n : Int => (n : ℚ))).sum / (xs.length : ℚ))

/-- The rows of `df.loc[keep]` that fall in the group with key `k`. -/
def groupRows (kept : List Row) (k : Int × Int × Int) : List Row :=
  kept.filter (fun r => decide (rowKey r = some k))

/-- One output row of the aggregator: `YEAR`, `MONTH`, `is_parent` (cast
back to int by the final `astype`) and the group's mean `rate`. -/
structure RateRow where
  YEAR : Int
  MONTH : Int
  is_parent : Int
  rate : Option ℚ
deriving DecidableEq, Repr

/-- `df.loc[keep]`: the rows that pass the eligibility mask. -/
def keptRows (t : Table) : List Row :=
  t.rows.filter eligibleRow

/-- The group keys of `df.loc[keep].groupby(["YEAR", "MONTH", "is_parent"])`:
the distinct non-null keys among the kept rows, in the ascending order
pandas emits them in. -/
def aggKeys (t : Table) : List (Int × Int × Int) :=
  List.insertionSort keyLe (((keptRows t).filterMap rowKey).dedup)

/-- The aggregated output table:
`g["own_ill_absent"].mean().rename(columns={"own_ill_absent": "rate"})`,
one row per observed group. -/
def aggRates (t : Table) : List RateRow :=
  (aggKeys t).map (fun k =>
    { YEAR := k.1, MONTH := k.2.1, is_parent := k.2.2
      rate := groupMean ((groupRows (keptRows t) k).map (fun r => r.own_ill_absent)) })

/-- `_aggregate_monthly_rates(df)`: filter to employed 25-49-year-olds,
group the kept rows by (YEAR, MONTH, is_parent) — pandas drops null keys
and emits groups in ascending key order — and take the group mean of
`own_ill_absent`, renamed to `rate`.  Column accesses that would raise on
an absent column are modelled in their source order (EMPSTAT and AGE via
`df.get(...).fillna`, then the three groupby keys, then the aggregated
column). -/
def aggregate_monthly_rates (t : Table) :
    Except MissingColumnError (List RateRow) :=
  if t.schema.EMPSTAT = false then .error (.missing "EMPSTAT")
  else if t.schema.AGE = false then .error (.missing "AGE")
  else if t.schema.YEAR = false then .error (.missing "YEAR")
  else if t.schema.MONTH = false then .error (.missing "MONTH")
  else if t.schema.is_parent = false then .error (.missing "is_parent")
  else if t.schema.own_ill_absent = false then .error (.missing "own_ill_absent")
  else .ok (aggRates t)

/-! ## DiD model builder: `run_monthlevel_ols` (src/analysis/did_model.py) -/

/-- A rate row after `_make_periods` and the `month_id` assignment ran on
the rates table inside `run_monthlevel_ols`. -/
structure TaggedRateRow where
  YEAR : Int
  MONTH : Int
  is_parent : Int
  rate : Option ℚ
  P1 : Int
  P2 : Int
  P3 : Int
  month_id : Int
deriving DecidableEq, Repr

/-- `_make_periods(rates)` followed by
`df["month_id"] = df["YEAR"].astype(int) * 12 + df["MONTH"].astype(int)`,
on one rate row (the YEAR column of the rates table is integer-typed, so
`to_numeric` is the identity on it). -/
def tagRateRow (r : RateRow) : TaggedRateRow :=
  { YEAR := r.YEAR, MONTH := r.MONTH, is_parent := r.is_parent, rate := r.rate
    P1 := p1val (some r.YEAR), P2 := p2val (some r.YEAR), P3 := p3val (some r.YEAR)
    month_id := r.YEAR * 12 + r.MONTH }

/-- The regressors patsy builds for one observation from the formula
`rate ~ is_parent * (P2 + P3) + C(MONTH)`: an intercept, the calendar-month
fixed effect (the categorical MONTH level), the main effects `is_parent`,
`P2`, `P3`, and the two interaction products. -/
structure Regressors where
  const : ℚ
  monthFE : Int
  is_parent : ℚ
  P2 : ℚ
  P3 : ℚ
  is_parent_x_P2 : ℚ
  is_parent_x_P3 : ℚ
deriving DecidableEq, Repr

/-- Design row of the month-level OLS for one tagged observation. -/
def regressorsOf (r : TaggedRateRow) : Regressors :=
  { const := 1
    monthFE := r.MONTH
    is_parent := (r.is_parent : ℚ)
    P2 := (r.P2 : ℚ)
    P3 := (r.P3 : ℚ)
    is_parent_x_P2 := (r.is_parent : ℚ) * (r.P2 : ℚ)
    is_parent_x_P3 := (r.is_parent : ℚ) * (r.P3 : ℚ) }

/-- The fitted model specification assembled by `run_monthlevel_ols`: the
formula handed to `smf.ols`, the response column, the expanded design, and
the cluster assignment handed to `.fit(cov_type="cluster",
cov_kwds={"groups": df["month_id"]})`. -/
structure OLSModel where
  formula : String
  response : List (Option ℚ)
  design : List Regressors
  clusterGroups : List Int
deriving DecidableEq, Repr

/-- `run_monthlevel_ols(rates)`: tag periods and `month_id`, then fit
`rate ~ is_parent * (P2 + P3) + C(MONTH)` by OLS with standard errors
clustered on `month_id`. -/
def run_monthlevel_ols (rates : List RateRow) : OLSModel :=
  let df := rates.map tagRateRow
  { formula := "rate ~ is_parent * (P2 + P3) + C(MONTH)"
    response := df.map (fun r => r.rate)
    design := df.map regressorsOf
    clusterGroups := df.map (fun r => r.month_id) }

/-! ## Derived normal forms and sample tables -/

/-- Normal form of a successful `minimal_recode` run: coerce the present
listed columns in every row, then derive `own_ill_absent`. -/
def recodedTable (t : Table) : Table :=
  { schema := { t.schema with own_ill_absent := true }
    rows := t.rows.map (fun r =>
      { coerceRow t.schema r with own_ill_absent := ownIllCell r }) }

/-- Normal form of a successful `make_parent_flags` run. -/
def parentFlagsTable (t : Table) : Table :=
  { schema := { t.schema with is_parent := true, has_child_u5 := true }
    rows := t.rows.map parentFlagsRow }

/-- Normal form of a successful `_make_periods` run. -/
def periodsTable (t : Table) : Table :=
  { schema := { t.schema with P1 := true, P2 := true, P3 := true }
    rows := t.rows.map makePeriodsRow }

/-- Sample raw schema: the survey columns are present, nothing derived is. -/
def exRecSchema : Schema :=
  { YEAR := true, MONTH := true, STATEFIP := true, AGE := true, SEX := true
    EDUC := true, EMPSTAT := true, NCHILD := true, NCHLT5 := true
    MOMLOC := true, POPLOC := true, ABSENT := true, WHYABSNT := true }

/-- Sample record: an employed 30-year-old parent, absent from work for
own illness, March 2007. -/
def exRecRow : Row :=
  { YEAR := Cell.iv 2007, MONTH := Cell.iv 3, AGE := Cell.iv 30
    EMPSTAT := Cell.iv 10, NCHILD := Cell.iv 2, ABSENT := Cell.iv 1
    WHYABSNT := Cell.iv 10 }

/-- Sample one-row raw table. -/
def exRecTable : Table := { schema := exRecSchema, rows := [exRecRow] }

/-- Sample raw table whose WHYABSNT column is entirely absent. -/
def exNoWhyTable : Table :=
  { schema := { exRecSchema with WHYABSNT := false }, rows := [exRecRow] }

/-- Sample row with an unparseable YEAR cell. -/
def exJunkYearRow : Row := { exRecRow with YEAR := Cell.junk }

/-- Sample table holding years 2007, 2008 and 2020 plus a junk year. -/
def exPeriodTable : Table :=
  { schema := exRecSchema
    rows := [exRecRow, { exRecRow with YEAR := Cell.iv 2008 },
      { exRecRow with YEAR := Cell.iv 2020 }, exJunkYearRow] }

/-- Sample flagged schema: raw columns plus the derived flag columns. -/
def exAggSchema : Schema :=
  { exRecSchema with own_ill_absent := true, is_parent := true, has_child_u5 := true }

/-- Sample flagged row whose EMPSTAT cell is unparseable. -/
def exNullEmpRow : Row :=
  { exRecRow with EMPSTAT := Cell.junk, own_ill_absent := Cell.iv 1, is_parent := Cell.iv 1 }

/-- Sample flagged table: two eligible rows of March 2007 (a non-parent
without and a parent with an own-illness absence), one 60-year-old row
that fails the age filter, and one row with an unparseable EMPSTAT. -/
def exAggTable : Table :=
  { schema := exAggSchema
    rows := [{ exRecRow with own_ill_absent := Cell.iv 0, is_parent := Cell.iv 0 },
      { exRecRow with own_ill_absent := Cell.iv 1, is_parent := Cell.iv 1 },
      { exRecRow with AGE := Cell.iv 60, own_ill_absent := Cell.iv 1, is_parent := Cell.iv 1 },
      exNullEmpRow] }

/-- The monthly rates the sample flagged table aggregates to. -/
def exAggOut : List RateRow :=
  [{ YEAR := 2007, MONTH := 3, is_parent := 0, rate := some 0 },
   { YEAR := 2007, MONTH := 3, is_parent := 1, rate := some 1 }]

/-- Sample month-level rate row for the DiD model builder. -/
def exRateRow : RateRow := { YEAR := 2010, MONTH := 5, is_parent := 1, rate := some (1 / 2) }

/-- Sample month-level rate input for the DiD model builder. -/
def exRates : List RateRow := [exRateRow]

/-! ## Basic lemmas about cells and the Recoder -/

theorem toNum_coerceCell (c : Cell) : toNum (coerceCell c) = toNum c := by
  cases c <;> rfl

theorem coerceCell_coerceCell (c : Cell) :
    coerceCell (coerceCell c) = coerceCell c := by
  cases c <;> rfl

theorem toNum_coerceIf (b : Bool) (c : Cell) : toNum (coerceIf b c) = toNum c := by
  cases b <;> simp [coerceIf, toNum_coerceCell]

theorem coerceIf_coerceIf (b : Bool) (c : Cell) :
    coerceIf b (coerceIf b c) = coerceIf b c := by
  cases b <;> simp [coerceIf, coerceCell_coerceCell]

theorem ownIllCell_coerceRow (s : Schema) (r : Row) :
    ownIllCell (coerceRow s r) = ownIllCell r := by
  simp [ownIllCell, coerceRow, toNum_coerceIf]

theorem minimal_recode_ok (t : Table) (hA : t.schema.ABSENT = true)
    (hW : t.schema.WHYABSNT = true) :
    minimal_recode t = .ok (recodedTable t) ∧
    minimal_recode_mutated t = recodedTable t := by
  have key : ((fun r => { r with own_ill_absent := ownIllCell r }) ∘ coerceRow t.schema) =
      (fun r => { coerceRow t.schema r with own_ill_absent := ownIllCell r }) := by
    funext r
    simp [Function.comp, ownIllCell_coerceRow]
  unfold minimal_recode minimal_recode_mutated minimal_recode_io recodedTable
  simp only [hA, hW, Bool.true_eq_false, if_false, List.map_map, key]
  refine ⟨?_, ?_⟩ <;> first | rfl | trivial

theorem minimal_recode_ok_inv (t u : Table) (h : minimal_recode t = .ok u) :
    t.schema.ABSENT = true ∧ t.schema.WHYABSNT = true ∧ u = recodedTable t := by
  by_cases hA : t.schema.ABSENT = true
  · by_cases hW : t.schema.WHYABSNT = true
    · refine ⟨hA, hW, ?_⟩
      have := (minimal_recode_ok t hA hW).1
      rw [this] at h
      exact (Except.ok.injEq _ _).mp h.symm
    · exfalso
      have hW' : t.schema.WHYABSNT = false := by
        cases hwv : t.schema.WHYABSNT
        · rfl
        · exact absurd hwv hW
      unfold minimal_recode minimal_recode_io at h
      have hA' : (t.schema.ABSENT = false) = False := by simp [hA]
      simp only [hA', if_false, hW', if_true] at h
      simp at h
  · exfalso
    have hA' : t.schema.ABSENT = false := by
      cases hav : t.schema.ABSENT
      · rfl
      · exact absurd hav hA
    unfold minimal_recode minimal_recode_io at h
    simp only [hA', if_true] at h
    simp at h

theorem recodedTable_row (t : Table) (i : Nat) (hi : i < t.rows.length) :
    (recodedTable t).rows.get ⟨i, by simpa [recodedTable] using hi⟩ =
      { coerceRow t.schema (t.rows.get ⟨i, hi⟩) with
        own_ill_absent := ownIllCell (t.rows.get ⟨i, hi⟩) } := by
  simp [recodedTable]

theorem ownIllCell_eq_one (r : Row) :
    ownIllCell r = Cell.iv 1 ↔
      (toNum r.ABSENT = some 1 ∧ toNum r.WHYABSNT = some 10) := by
  unfold ownIllCell
  constructor
  · intro h
    split at h
    · rename_i hc
      refine ⟨?_, hc.2⟩
      cases ha : toNum r.ABSENT
      · exfalso; have := hc.1; rw [ha] at this; simp at this
      · have := hc.1; rw [ha] at this; simp at this; rw [this]
    · simp at h
  · intro ⟨h1, h2⟩
    rw [if_pos ⟨by rw [h1]; rfl, h2⟩]

theorem ownIllCell_cases (r : Row) :
    ownIllCell r = Cell.iv 0 ∨ ownIllCell r = Cell.iv 1 := by
  unfold ownIllCell
  split
  · right; rfl
  · left; rfl

theorem ownIllCell_null_reason (r : Row) (h : toNum r.WHYABSNT = none) :
    ownIllCell r = Cell.iv 0 := by
  unfold ownIllCell
  rw [if_neg]
  intro hc
  rw [h] at hc
  exact Option.noConfusion hc.2

/-! ## Claim theorems -/

/-- C1: in the Recoder's output, `own_ill_absent` is 1 iff the record's
ABSENT value is 1 and its WHYABSNT value is the own-illness code 10; it is
always 0 or 1, a null WHYABSNT gives 0, and a value of 1 forces ABSENT = 1. -/
theorem recoder_own_ill_spec (t u : Table) (h : minimal_recode t = .ok u)
    (i : Nat) (hi : i < t.rows.length) (hu : i < u.rows.length) :
    ((u.rows.get ⟨i, hu⟩).own_ill_absent = Cell.iv 1 ↔
      (toNum (t.rows.get ⟨i, hi⟩).ABSENT = some 1 ∧
       toNum (t.rows.get ⟨i, hi⟩).WHYABSNT = some 10)) ∧
    ((u.rows.get ⟨i, hu⟩).own_ill_absent = Cell.iv 0 ∨
      (u.rows.get ⟨i, hu⟩).own_ill_absent = Cell.iv 1) ∧
    (toNum (t.rows.get ⟨i, hi⟩).WHYABSNT = none →
      (u.rows.get ⟨i, hu⟩).own_ill_absent = Cell.iv 0) ∧
    ((u.rows.get ⟨i, hu⟩).own_ill_absent = Cell.iv 1 →
      toNum (t.rows.get ⟨i, hi⟩).ABSENT = some 1) := by
  obtain ⟨hA, hW, hut⟩ := minimal_recode_ok_inv t u h
  subst hut
  have hrow : (recodedTable t).rows.get ⟨i, hu⟩ =
      { coerceRow t.schema (t.rows.get ⟨i, hi⟩) with
        own_ill_absent := ownIllCell (t.rows.get ⟨i, hi⟩) } :=
    recodedTable_row t i hi
  rw [hrow]
  refine ⟨ownIllCell_eq_one _, ownIllCell_cases _, ownIllCell_null_reason _,
    fun hone => ((ownIllCell_eq_one _).mp hone).1⟩

/-- Witness for C1: on the sample table, the Recoder succeeds and the
derived flag of its single row is 1 exactly because ABSENT = 1 and
WHYABSNT = 10. -/
theorem recoder_own_ill_spec_witness :
    minimal_recode exRecTable = .ok (recodedTable exRecTable) ∧
    (((recodedTable exRecTable).rows.get ⟨0, by decide⟩).own_ill_absent = Cell.iv 1 ↔
      (toNum (exRecTable.rows.get ⟨0, by decide⟩).ABSENT = some 1 ∧
       toNum (exRecTable.rows.get ⟨0, by decide⟩).WHYABSNT = some 10)) :=
  ⟨(minimal_recode_ok exRecTable rfl rfl).1,
    (recoder_own_ill_spec exRecTable (recodedTable exRecTable)
      ((minimal_recode_ok exRecTable rfl rfl).1) 0 (by decide) (by decide)).1⟩

theorem minimal_recode_err_absent (t : Table) (h : t.schema.ABSENT = false) :
    minimal_recode t = .error (.missing "ABSENT") := by
  unfold minimal_recode minimal_recode_io
  simp [h]

theorem minimal_recode_err_why (t : Table) (hA : t.schema.ABSENT = true)
    (hW : t.schema.WHYABSNT = false) :
    minimal_recode t = .error (.missing "WHYABSNT") := by
  unfold minimal_recode minimal_recode_io
  simp [hA, hW]

/-- C5: the Recoder returns normally for every combination of cell values
(malformed cells only turn into nulls); it fails exactly when the ABSENT or
WHYABSNT column is entirely absent, and then it signals the missing-column
error naming that column instead of passing a null-filled table through. -/
theorem recoder_error_handling (t : Table) :
    ((∃ e, minimal_recode t = .error e) ↔
      (t.schema.ABSENT = false ∨ t.schema.WHYABSNT = false)) ∧
    (t.schema.ABSENT = false →
      minimal_recode t = .error (.missing "ABSENT")) ∧
    (t.schema.ABSENT = true → t.schema.WHYABSNT = false →
      minimal_recode t = .error (.missing "WHYABSNT")) ∧
    (t.schema.ABSENT = true → t.schema.WHYABSNT = true →
      minimal_recode t = .ok (recodedTable t)) ∧
    (∀ c : Cell, toNum c = none → coerceCell c = Cell.na) := by
  refine ⟨⟨?_, ?_⟩, minimal_recode_err_absent t, minimal_recode_err_why t,
    fun hA hW => (minimal_recode_ok t hA hW).1, ?_⟩
  · rintro ⟨e, he⟩
    by_contra hn
    push_neg at hn
    have hA : t.schema.ABSENT = true := by
      cases h' : t.schema.ABSENT
      · exact absurd h' hn.1
      · rfl
    have hW : t.schema.WHYABSNT = true := by
      cases h' : t.schema.WHYABSNT
      · exact absurd h' hn.2
      · rfl
    rw [(minimal_recode_ok t hA hW).1] at he
    exact Except.noConfusion he
  · intro h
    rcases h with h | h
    · exact ⟨_, minimal_recode_err_absent t h⟩
    · cases hA : t.schema.ABSENT
      · exact ⟨_, minimal_recode_err_absent t hA⟩
      · exact ⟨_, minimal_recode_err_why t hA h⟩
  · intro c hc
    cases c
    · exact absurd hc (by simp [toNum])
    · rfl
    · rfl

/-- Witness for C5: dropping the WHYABSNT column makes the Recoder signal
the missing-column error for WHYABSNT; malformed cells coerce to null. -/
theorem recoder_error_handling_witness :
    minimal_recode exNoWhyTable = .error (.missing "WHYABSNT") ∧
    coerceCell Cell.junk = Cell.na :=
  ⟨(recoder_error_handling exNoWhyTable).2.2.1 rfl rfl,
    (recoder_error_handling exNoWhyTable).2.2.2.2 Cell.junk rfl⟩

/-- C6 counterexample: the Recoder is *not* side-effect free — on the
sample raw table the caller's table after `minimal_recode` differs from
what was passed in (the derived `own_ill_absent` column now sits in it). -/
theorem recoder_mutates_input_cex :
    minimal_recode_mutated exRecTable ≠ exRecTable := by
  decide

/-- C6 amended: `make_parent_flags` works on a copy and leaves its input
unchanged, but `minimal_recode` updates its argument table in place: after
a successful call the caller's table *is* the returned derived table, and
after a failing call it still carries the retyped columns. -/
theorem pipeline_frame_amended :
    (∀ t : Table, (make_parent_flags_io t).2 = t) ∧
    (∀ t u : Table, minimal_recode t = .ok u → minimal_recode_mutated t = u) ∧
    (∀ t : Table, ∀ e, minimal_recode t = .error e →
      minimal_recode_mutated t =
        { schema := t.schema, rows := t.rows.map (coerceRow t.schema) }) := by
  refine ⟨fun t => rfl, ?_, ?_⟩
  · intro t u h
    obtain ⟨hA, hW, hut⟩ := minimal_recode_ok_inv t u h
    subst hut
    exact (minimal_recode_ok t hA hW).2
  · intro t e h
    unfold minimal_recode_mutated minimal_recode_io
    by_cases hA : t.schema.ABSENT = false
    · simp [hA]
    · have hA' : t.schema.ABSENT = true := by
        cases h' : t.schema.ABSENT
        · exact absurd h' hA
        · rfl
      by_cases hW : t.schema.WHYABSNT = false
      · simp [hA', hW]
      · have hW' : t.schema.WHYABSNT = true := by
          cases h' : t.schema.WHYABSNT
          · exact absurd h' hW
          · rfl
        rw [(minimal_recode_ok t hA' hW').1] at h
        exact Except.noConfusion h

/-- Witness for the amended C6 on the sample table. -/
theorem pipeline_frame_amended_witness :
    (make_parent_flags_io exRecTable).2 = exRecTable ∧
    minimal_recode_mutated exRecTable = recodedTable exRecTable :=
  ⟨pipeline_frame_amended.1 exRecTable,
    pipeline_frame_amended.2.1 exRecTable (recodedTable exRecTable)
      ((minimal_recode_ok exRecTable rfl rfl).1)⟩

theorem make_parent_flags_ok (t : Table) (h1 : t.schema.NCHILD = true)
    (h2 : t.schema.MOMLOC = true) (h3 : t.schema.POPLOC = true)
    (h4 : t.schema.NCHLT5 = true) :
    make_parent_flags t = .ok (parentFlagsTable t) := by
  unfold make_parent_flags parentFlagsTable
  simp [h1, h2, h3, h4]

theorem make_parent_flags_ok_inv (t w : Table) (h : make_parent_flags t = .ok w) :
    t.schema.NCHILD = true ∧ t.schema.MOMLOC = true ∧ t.schema.POPLOC = true ∧
    t.schema.NCHLT5 = true ∧ w = parentFlagsTable t := by
  unfold make_parent_flags at h
  split_ifs at h with c1 c2 c3 c4
  have d1 : t.schema.NCHILD = true := by revert c1; cases t.schema.NCHILD <;> simp
  have d2 : t.schema.MOMLOC = true := by revert c2; cases t.schema.MOMLOC <;> simp
  have d3 : t.schema.POPLOC = true := by revert c3; cases t.schema.POPLOC <;> simp
  have d4 : t.schema.NCHLT5 = true := by revert c4; cases t.schema.NCHLT5 <;> simp
  injection h with hh
  exact ⟨d1, d2, d3, d4, hh.symm⟩

theorem parentFlagsRow_idem (r : Row) :
    parentFlagsRow (parentFlagsRow r) = parentFlagsRow r := rfl

theorem parentFlagsTable_idem (t : Table) :
    parentFlagsTable (parentFlagsTable t) = parentFlagsTable t := by
  unfold parentFlagsTable
  simp only [List.map_map]
  have hcomp : parentFlagsRow ∘ parentFlagsRow = parentFlagsRow := by
    funext r
    simp [Function.comp, parentFlagsRow_idem]
  rw [hcomp]

theorem recodeRow_idem (s : Schema) (r : Row) :
    ({ coerceRow s ({ coerceRow s r with own_ill_absent := ownIllCell r }) with
        own_ill_absent := ownIllCell ({ coerceRow s r with own_ill_absent := ownIllCell r }) } : Row) =
      { coerceRow s r with own_ill_absent := ownIllCell r } := by
  simp [coerceRow, ownIllCell, coerceIf_coerceIf, toNum_coerceIf]

theorem recodedTable_idem (t : Table) :
    recodedTable (recodedTable t) = recodedTable t := by
  unfold recodedTable
  simp only [List.map_map]
  have hcomp :
      ((fun r => { coerceRow { t.schema with own_ill_absent := true } r with
          own_ill_absent := ownIllCell r }) ∘
        (fun r => { coerceRow t.schema r with own_ill_absent := ownIllCell r })) =
      (fun r => { coerceRow t.schema r with own_ill_absent := ownIllCell r }) := by
    funext r
    have := recodeRow_idem t.schema r
    simpa [Function.comp] using this
  rw [hcomp]

/-- C7: the Recoder and the Parent Classifier are idempotent — run on
their own output (derived columns already present), each returns exactly
that output again, so in particular `own_ill_absent`, `is_parent` and
`has_child_u5` keep their values. -/
theorem recode_flags_idempotent (t u t2 w : Table)
    (h : minimal_recode t = .ok u) (h2 : make_parent_flags t2 = .ok w) :
    minimal_recode u = .ok u ∧ make_parent_flags w = .ok w := by
  constructor
  · obtain ⟨hA, hW, hut⟩ := minimal_recode_ok_inv t u h
    subst hut
    have hstep := (minimal_recode_ok (recodedTable t) hA hW).1
    rw [hstep, recodedTable_idem]
  · obtain ⟨d1, d2, d3, d4, hwt⟩ := make_parent_flags_ok_inv t2 w h2
    subst hwt
    have hstep := make_parent_flags_ok (parentFlagsTable t2) d1 d2 d3 d4
    rw [hstep, parentFlagsTable_idem]

/-- Witness for C7 on the sample table. -/
theorem recode_flags_idempotent_witness :
    minimal_recode (recodedTable exRecTable) = .ok (recodedTable exRecTable) ∧
    make_parent_flags (parentFlagsTable exRecTable) = .ok (parentFlagsTable exRecTable) :=
  recode_flags_idempotent exRecTable _ exRecTable _
    ((minimal_recode_ok exRecTable rfl rfl).1)
    (make_parent_flags_ok exRecTable rfl rfl rfl rfl)

theorem iv_indicator_eq_one (P : Prop) [Decidable P] :
    (Cell.iv (if P then 1 else 0) : Cell) = Cell.iv 1 ↔ P := by
  by_cases h : P <;> simp [h]

theorem iv_indicator_eq_zero (P : Prop) [Decidable P] :
    (Cell.iv (if P then 1 else 0) : Cell) = Cell.iv 0 ↔ ¬P := by
  by_cases h : P <;> simp [h]

theorem parentFlagsTable_row (t : Table) (i : Nat) (hi : i < t.rows.length) :
    (parentFlagsTable t).rows.get ⟨i, by simpa [parentFlagsTable] using hi⟩ =
      parentFlagsRow (t.rows.get ⟨i, hi⟩) := by
  simp [parentFlagsTable]

/-- C4: the Parent Classifier sets `is_parent` to 1 iff NCHILD, MOMLOC or
POPLOC is positive and `has_child_u5` to 1 iff NCHLT5 is positive, each
contributing cell read as 0 when null or malformed; in particular a
positive NCHILD forces `is_parent = 1` whatever the link fields hold, and
all-null contributing cells give 0. -/
theorem parent_classifier_spec (t w : Table) (h : make_parent_flags t = .ok w)
    (i : Nat) (hi : i < t.rows.length) (hw : i < w.rows.length) :
    ((w.rows.get ⟨i, hw⟩).is_parent = Cell.iv 1 ↔
      ((toNum (t.rows.get ⟨i, hi⟩).NCHILD).getD 0 > 0 ∨
       (toNum (t.rows.get ⟨i, hi⟩).MOMLOC).getD 0 > 0 ∨
       (toNum (t.rows.get ⟨i, hi⟩).POPLOC).getD 0 > 0)) ∧
    ((w.rows.get ⟨i, hw⟩).has_child_u5 = Cell.iv 1 ↔
      (toNum (t.rows.get ⟨i, hi⟩).NCHLT5).getD 0 > 0) ∧
    ((toNum (t.rows.get ⟨i, hi⟩).NCHILD).getD 0 > 0 →
      (w.rows.get ⟨i, hw⟩).is_parent = Cell.iv 1) ∧
    ((toNum (t.rows.get ⟨i, hi⟩).NCHILD = none ∧
      toNum (t.rows.get ⟨i, hi⟩).MOMLOC = none ∧
      toNum (t.rows.get ⟨i, hi⟩).POPLOC = none) →
      (w.rows.get ⟨i, hw⟩).is_parent = Cell.iv 0) ∧
    (toNum (t.rows.get ⟨i, hi⟩).NCHLT5 = none →
      (w.rows.get ⟨i, hw⟩).has_child_u5 = Cell.iv 0) := by
  obtain ⟨d1, d2, d3, d4, hwt⟩ := make_parent_flags_ok_inv t w h
  subst hwt
  have hrow : (parentFlagsTable t).rows.get ⟨i, hw⟩ =
      parentFlagsRow (t.rows.get ⟨i, hi⟩) := parentFlagsTable_row t i hi
  rw [hrow]
  have hip : (parentFlagsRow (t.rows.get ⟨i, hi⟩)).is_parent =
      Cell.iv (if (toNum (t.rows.get ⟨i, hi⟩).NCHILD).getD 0 > 0 ∨
        (toNum (t.rows.get ⟨i, hi⟩).MOMLOC).getD 0 > 0 ∨
        (toNum (t.rows.get ⟨i, hi⟩).POPLOC).getD 0 > 0 then 1 else 0) := rfl
  have hu5 : (parentFlagsRow (t.rows.get ⟨i, hi⟩)).has_child_u5 =
      Cell.iv (if (toNum (t.rows.get ⟨i, hi⟩).NCHLT5).getD 0 > 0 then 1 else 0) := rfl
  rw [hip, hu5]
  refine ⟨iv_indicator_eq_one _, iv_indicator_eq_one _, ?_, ?_, ?_⟩
  · intro hpos
    exact (iv_indicator_eq_one _).mpr (Or.inl hpos)
  · rintro ⟨h1, h2, h3⟩
    refine (iv_indicator_eq_zero _).mpr ?_
    rintro (hp | hp | hp)
    · rw [h1] at hp; exact absurd hp (by simp)
    · rw [h2] at hp; exact absurd hp (by simp)
    · rw [h3] at hp; exact absurd hp (by simp)
  · intro h1
    refine (iv_indicator_eq_zero _).mpr ?_
    intro hp
    rw [h1] at hp
    exact absurd hp (by simp)

/-- Witness for C4 on the sample table: NCHILD = 2 gives `is_parent = 1`,
NCHLT5 null gives `has_child_u5 = 0`. -/
theorem parent_classifier_spec_witness :
    make_parent_flags exRecTable = .ok (parentFlagsTable exRecTable) ∧
    ((parentFlagsTable exRecTable).rows.get ⟨0, by decide⟩).is_parent = Cell.iv 1 ∧
    ((parentFlagsTable exRecTable).rows.get ⟨0, by decide⟩).has_child_u5 = Cell.iv 0 :=
  ⟨make_parent_flags_ok exRecTable rfl rfl rfl rfl,
    (parent_classifier_spec exRecTable (parentFlagsTable exRecTable)
      (make_parent_flags_ok exRecTable rfl rfl rfl rfl) 0 (by decide) (by decide)).2.2.1
      (by decide),
    (parent_classifier_spec exRecTable (parentFlagsTable exRecTable)
      (make_parent_flags_ok exRecTable rfl rfl rfl rfl) 0 (by decide) (by decide)).2.2.2.2
      (by decide)⟩

theorem make_periods_ok (t : Table) (hY : t.schema.YEAR = true) :
    make_periods t = .ok (periodsTable t) := by
  unfold make_periods periodsTable
  simp [hY]

theorem make_periods_ok_inv (t u : Table) (h : make_periods t = .ok u) :
    t.schema.YEAR = true ∧ u = periodsTable t := by
  unfold make_periods at h
  split_ifs at h with c1
  have d : t.schema.YEAR = true := by revert c1; cases t.schema.YEAR <;> simp
  injection h with hh
  exact ⟨d, hh.symm⟩

theorem periodsTable_row (t : Table) (i : Nat) (hi : i < t.rows.length) :
    (periodsTable t).rows.get ⟨i, by simpa [periodsTable] using hi⟩ =
      makePeriodsRow (t.rows.get ⟨i, hi⟩) := by
  simp [periodsTable]

theorem p1val_eq_one (y : Option Int) :
    p1val y = 1 ↔ ∃ v, y = some v ∧ 1994 ≤ v ∧ v ≤ 2007 := by
  cases y with
  | none => simp [p1val]
  | some v =>
    by_cases h : 1994 ≤ v ∧ v ≤ 2007 <;> simp [p1val, h]

theorem p2val_eq_one (y : Option Int) :
    p2val y = 1 ↔ ∃ v, y = some v ∧ 2008 ≤ v ∧ v ≤ 2019 := by
  cases y with
  | none => simp [p2val]
  | some v =>
    by_cases h : 2008 ≤ v ∧ v ≤ 2019 <;> simp [p2val, h]

theorem p3val_eq_one (y : Option Int) :
    p3val y = 1 ↔ ∃ v, y = some v ∧ 2020 ≤ v := by
  cases y with
  | none => simp [p3val]
  | some v =>
    by_cases h : 2020 ≤ v <;> simp [p3val, h]

theorem pvals_exactly_one (v : Int) (hv : 1994 ≤ v) :
    (p1val (some v) = 1 ∧ p2val (some v) = 0 ∧ p3val (some v) = 0) ∨
    (p1val (some v) = 0 ∧ p2val (some v) = 1 ∧ p3val (some v) = 0) ∨
    (p1val (some v) = 0 ∧ p2val (some v) = 0 ∧ p3val (some v) = 1) := by
  unfold p1val p2val p3val
  by_cases h1 : v ≤ 2007
  · exact Or.inl ⟨if_pos ⟨hv, h1⟩, if_neg (by omega), if_neg (by omega)⟩
  · by_cases h2 : v ≤ 2019
    · exact Or.inr (Or.inl ⟨if_neg (by omega), if_pos ⟨by omega, h2⟩, if_neg (by omega)⟩)
    · exact Or.inr (Or.inr ⟨if_neg (by omega), if_neg (by omega), if_pos (by omega)⟩)

theorem pvals_below (v : Int) (hv : v < 1994) :
    p1val (some v) = 0 ∧ p2val (some v) = 0 ∧ p3val (some v) = 0 := by
  unfold p1val p2val p3val
  exact ⟨if_neg (by omega), if_neg (by omega), if_neg (by omega)⟩

/-- C2: the Period Tagger sets P1 = 1 iff the year lies in [1994, 2007],
P2 = 1 iff it lies in [2008, 2019], P3 = 1 iff it is at least 2020; for a
year ≥ 1994 exactly one of the three indicators is 1 (2007 → P1, 2008 →
P2, 2020 → P3), and for a year below 1994 all three are 0. -/
theorem period_tagger_spec (t u : Table) (h : make_periods t = .ok u)
    (i : Nat) (hi : i < t.rows.length) (hu : i < u.rows.length) :
    ((u.rows.get ⟨i, hu⟩).P1 = Cell.iv 1 ↔
      ∃ v, toNum (t.rows.get ⟨i, hi⟩).YEAR = some v ∧ 1994 ≤ v ∧ v ≤ 2007) ∧
    ((u.rows.get ⟨i, hu⟩).P2 = Cell.iv 1 ↔
      ∃ v, toNum (t.rows.get ⟨i, hi⟩).YEAR = some v ∧ 2008 ≤ v ∧ v ≤ 2019) ∧
    ((u.rows.get ⟨i, hu⟩).P3 = Cell.iv 1 ↔
      ∃ v, toNum (t.rows.get ⟨i, hi⟩).YEAR = some v ∧ 2020 ≤ v) ∧
    (∀ v, toNum (t.rows.get ⟨i, hi⟩).YEAR = some v → 1994 ≤ v →
      (((u.rows.get ⟨i, hu⟩).P1 = Cell.iv 1 ∧ (u.rows.get ⟨i, hu⟩).P2 = Cell.iv 0 ∧
        (u.rows.get ⟨i, hu⟩).P3 = Cell.iv 0) ∨
       ((u.rows.get ⟨i, hu⟩).P1 = Cell.iv 0 ∧ (u.rows.get ⟨i, hu⟩).P2 = Cell.iv 1 ∧
        (u.rows.get ⟨i, hu⟩).P3 = Cell.iv 0) ∨
       ((u.rows.get ⟨i, hu⟩).P1 = Cell.iv 0 ∧ (u.rows.get ⟨i, hu⟩).P2 = Cell.iv 0 ∧
        (u.rows.get ⟨i, hu⟩).P3 = Cell.iv 1))) ∧
    (∀ v, toNum (t.rows.get ⟨i, hi⟩).YEAR = some v → v < 1994 →
      ((u.rows.get ⟨i, hu⟩).P1 = Cell.iv 0 ∧ (u.rows.get ⟨i, hu⟩).P2 = Cell.iv 0 ∧
       (u.rows.get ⟨i, hu⟩).P3 = Cell.iv 0)) := by
  obtain ⟨hY, hut⟩ := make_periods_ok_inv t u h
  subst hut
  rw [periodsTable_row t i hi]
  have e1 : (makePeriodsRow (t.rows.get ⟨i, hi⟩)).P1 =
      Cell.iv (p1val (toNum (t.rows.get ⟨i, hi⟩).YEAR)) := rfl
  have e2 : (makePeriodsRow (t.rows.get ⟨i, hi⟩)).P2 =
      Cell.iv (p2val (toNum (t.rows.get ⟨i, hi⟩).YEAR)) := rfl
  have e3 : (makePeriodsRow (t.rows.get ⟨i, hi⟩)).P3 =
      Cell.iv (p3val (toNum (t.rows.get ⟨i, hi⟩).YEAR)) := rfl
  rw [e1, e2, e3]
  refine ⟨?_, ?_, ?_, ?_, ?_⟩
  · simp only [Cell.iv.injEq]
    exact p1val_eq_one _
  · simp only [Cell.iv.injEq]
    exact p2val_eq_one _
  · simp only [Cell.iv.injEq]
    exact p3val_eq_one _
  · intro v hv h94
    rw [hv]
    rcases pvals_exactly_one v h94 with ⟨a, b, c⟩ | ⟨a, b, c⟩ | ⟨a, b, c⟩
    · exact Or.inl ⟨by rw [a], by rw [b], by rw [c]⟩
    · exact Or.inr (Or.inl ⟨by rw [a], by rw [b], by rw [c]⟩)
    · exact Or.inr (Or.inr ⟨by rw [a], by rw [b], by rw [c]⟩)
  · intro v hv hlt
    rw [hv]
    obtain ⟨a, b, c⟩ := pvals_below v hlt
    exact ⟨by rw [a], by rw [b], by rw [c]⟩

/-- Witness for C2: on the sample years table, 2007 turns P1 on, 2008
turns P2 on, 2020 turns P3 on. -/
theorem period_tagger_spec_witness :
    make_periods exPeriodTable = .ok (periodsTable exPeriodTable) ∧
    ((periodsTable exPeriodTable).rows.get ⟨0, by decide⟩).P1 = Cell.iv 1 ∧
    ((periodsTable exPeriodTable).rows.get ⟨1, by decide⟩).P2 = Cell.iv 1 ∧
    ((periodsTable exPeriodTable).rows.get ⟨2, by decide⟩).P3 = Cell.iv 1 :=
  ⟨make_periods_ok exPeriodTable rfl,
    (period_tagger_spec exPeriodTable (periodsTable exPeriodTable)
      (make_periods_ok exPeriodTable rfl) 0 (by decide) (by decide)).1.mpr
      ⟨2007, rfl, by decide, by decide⟩,
    ((period_tagger_spec exPeriodTable (periodsTable exPeriodTable)
      (make_periods_ok exPeriodTable rfl) 1 (by decide) (by decide)).2.1).mpr
      ⟨2008, rfl, by decide, by decide⟩,
    ((period_tagger_spec exPeriodTable (periodsTable exPeriodTable)
      (make_periods_ok exPeriodTable rfl) 2 (by decide) (by decide)).2.2.1).mpr
      ⟨2020, rfl, by decide⟩⟩

/-- C9: given a table that has a YEAR column, the Period Tagger always
returns normally, and a row whose year cell is null or unparseable gets
P1 = P2 = P3 = 0. -/
theorem period_tagger_total (t : Table) (hY : t.schema.YEAR = true) :
    make_periods t = .ok (periodsTable t) ∧
    ∀ i (hi : i < t.rows.length),
      toNum (t.rows.get ⟨i, hi⟩).YEAR = none →
      ((periodsTable t).rows.get ⟨i, by simpa [periodsTable] using hi⟩).P1 = Cell.iv 0 ∧
      ((periodsTable t).rows.get ⟨i, by simpa [periodsTable] using hi⟩).P2 = Cell.iv 0 ∧
      ((periodsTable t).rows.get ⟨i, by simpa [periodsTable] using hi⟩).P3 = Cell.iv 0 := by
  refine ⟨make_periods_ok t hY, ?_⟩
  intro i hi hnone
  rw [periodsTable_row t i hi]
  have e1 : (makePeriodsRow (t.rows.get ⟨i, hi⟩)).P1 =
      Cell.iv (p1val (toNum (t.rows.get ⟨i, hi⟩).YEAR)) := rfl
  have e2 : (makePeriodsRow (t.rows.get ⟨i, hi⟩)).P2 =
      Cell.iv (p2val (toNum (t.rows.get ⟨i, hi⟩).YEAR)) := rfl
  have e3 : (makePeriodsRow (t.rows.get ⟨i, hi⟩)).P3 =
      Cell.iv (p3val (toNum (t.rows.get ⟨i, hi⟩).YEAR)) := rfl
  rw [e1, e2, e3, hnone]
  exact ⟨rfl, rfl, rfl⟩

/-- Witness for C9: the sample table's fourth row has an unparseable year
and gets all three period indicators equal to 0. -/
theorem period_tagger_total_witness :
    make_periods exPeriodTable = .ok (periodsTable exPeriodTable) ∧
    ((periodsTable exPeriodTable).rows.get ⟨3, by decide⟩).P1 = Cell.iv 0 ∧
    ((periodsTable exPeriodTable).rows.get ⟨3, by decide⟩).P2 = Cell.iv 0 ∧
    ((periodsTable exPeriodTable).rows.get ⟨3, by decide⟩).P3 = Cell.iv 0 :=
  ⟨(period_tagger_total exPeriodTable rfl).1,
    (period_tagger_total exPeriodTable rfl).2 3 (by decide) rfl⟩

theorem aggregate_ok (t : Table) (h1 : t.schema.EMPSTAT = true)
    (h2 : t.schema.AGE = true) (h3 : t.schema.YEAR = true)
    (h4 : t.schema.MONTH = true) (h5 : t.schema.is_parent = true)
    (h6 : t.schema.own_ill_absent = true) :
    aggregate_monthly_rates t = .ok (aggRates t) := by
  unfold aggregate_monthly_rates
  simp [h1, h2, h3, h4, h5, h6]

theorem aggregate_ok_inv (t : Table) (out : List RateRow)
    (h : aggregate_monthly_rates t = .ok out) : out = aggRates t := by
  unfold aggregate_monthly_rates at h
  split_ifs at h
  injection h with hh
  exact hh.symm

theorem list_sum_le_length (l : List ℚ) (h : ∀ x ∈ l, x ≤ 1) :
    l.sum ≤ (l.length : ℚ) := by
  induction l with
  | nil => simp
  | cons a tl ih =>
    simp only [List.sum_cons, List.length_cons]
    push_cast
    have ha := h a (List.mem_cons_self a tl)
    have htl := ih (fun x hx => h x (List.mem_cons_of_mem a hx))
    linarith

theorem int01_sum_bounds (xs : List Int) (h : ∀ x ∈ xs, x = 0 ∨ x = 1) :
    0 ≤ (xs.map (fun n : Int => (n : ℚ))).sum ∧
      (xs.map (fun n : Int => (n : ℚ))).sum ≤ (xs.length : ℚ) := by
  induction xs with
  | nil => simp
  | cons a tl ih =>
    obtain ⟨ih1, ih2⟩ := ih (fun x hx => h x (List.mem_cons_of_mem a hx))
    have ha := h a (List.mem_cons_self a tl)
    simp only [List.map_cons, List.sum_cons, List.length_cons, Nat.cast_add,
      Nat.cast_one]
    rcases ha with rfl | rfl <;>
      simp only [Int.cast_zero, Int.cast_one] <;>
      exact ⟨by linarith, by linarith⟩

theorem groupMean_unit (cells : List Cell) (hne : cells ≠ [])
    (h : ∀ c ∈ cells, c = Cell.iv 0 ∨ c = Cell.iv 1) :
    ∃ q, groupMean cells = some q ∧ 0 ≤ q ∧ q ≤ 1 := by
  have hxs : ∀ x ∈ cells.filterMap toNum, x = 0 ∨ x = 1 := by
    intro x hx
    obtain ⟨c, hc, hcx⟩ := List.mem_filterMap.mp hx
    rcases h c hc with rfl | rfl <;> simp [toNum] at hcx <;> omega
  have hne' : cells.filterMap toNum ≠ [] := by
    cases cells with
    | nil => exact absurd rfl hne
    | cons c tl =>
      rcases h c (List.mem_cons_self c tl) with rfl | rfl <;>
        simp [List.filterMap_cons, toNum]
  obtain ⟨hs0, hs1⟩ := int01_sum_bounds (cells.filterMap toNum) hxs
  unfold groupMean
  rw [if_neg (by simpa [List.isEmpty_iff] using hne')]
  refine ⟨_, rfl, ?_, ?_⟩
  · exact div_nonneg hs0 (Nat.cast_nonneg _)
  · have hlenpos : 0 < ((cells.filterMap toNum).length : ℚ) := by
      have : 0 < (cells.filterMap toNum).length := List.length_pos.mpr hne'
      exact_mod_cast this
    rw [div_le_one hlenpos]
    exact hs1

/-- C3: on a flagged table (every `own_ill_absent` cell 0 or 1), the Rate
Aggregator keeps exactly the rows with EMPSTAT in {10, 12} and AGE in
[25, 49], emits one row per observed (YEAR, MONTH, is_parent) group of the
kept rows — no duplicated group key, no group without eligible rows — and
each output rate is the group's mean of `own_ill_absent`, which lies in
[0, 1]. -/
theorem rate_aggregator_spec (t : Table) (out : List RateRow)
    (h : aggregate_monthly_rates t = .ok out)
    (hflags : ∀ r ∈ t.rows,
      r.own_ill_absent = Cell.iv 0 ∨ r.own_ill_absent = Cell.iv 1) :
    (∀ r ∈ t.rows, (r ∈ keptRows t ↔
      (((toNum r.EMPSTAT).getD 0 = 10 ∨ (toNum r.EMPSTAT).getD 0 = 12) ∧
        25 ≤ (toNum r.AGE).getD 0 ∧ (toNum r.AGE).getD 0 ≤ 49))) ∧
    (out.map (fun rr => (rr.YEAR, rr.MONTH, rr.is_parent))).Nodup ∧
    (∀ r ∈ keptRows t, ∀ k, rowKey r = some k →
      ∃ rr ∈ out, (rr.YEAR, rr.MONTH, rr.is_parent) = k) ∧
    (∀ rr ∈ out,
      groupRows (keptRows t) (rr.YEAR, rr.MONTH, rr.is_parent) ≠ [] ∧
      rr.rate = groupMean ((groupRows (keptRows t)
        (rr.YEAR, rr.MONTH, rr.is_parent)).map (fun r => r.own_ill_absent)) ∧
      ∃ q, rr.rate = some q ∧ 0 ≤ q ∧ q ≤ 1) := by
  have hout := aggregate_ok_inv t out h
  subst hout
  refine ⟨?_, ?_, ?_, ?_⟩
  · intro r hr
    simp [keptRows, List.mem_filter, hr, eligibleRow]
  · have hmapkeys : (aggRates t).map (fun rr => (rr.YEAR, rr.MONTH, rr.is_parent)) =
        aggKeys t := by
      unfold aggRates
      rw [List.map_map]
      exact List.map_id _
    rw [hmapkeys]
    have hperm := List.perm_insertionSort keyLe (((keptRows t).filterMap rowKey).dedup)
    exact hperm.nodup_iff.mpr (List.nodup_dedup _)
  · intro r hr k hk
    have hk1 : k ∈ (keptRows t).filterMap rowKey := List.mem_filterMap.mpr ⟨r, hr, hk⟩
    have hk2 : k ∈ aggKeys t := by
      unfold aggKeys
      exact (List.mem_insertionSort keyLe).mpr (List.mem_dedup.mpr hk1)
    refine ⟨_, List.mem_map_of_mem _ hk2, rfl⟩
  · intro rr hrr
    obtain ⟨k, hk, rfl⟩ := List.mem_map.mp hrr
    have hk' : k ∈ ((keptRows t).filterMap rowKey).dedup :=
      (List.mem_insertionSort keyLe).mp hk
    obtain ⟨r, hr, hkey⟩ := List.mem_filterMap.mp (List.mem_dedup.mp hk')
    have hrg : r ∈ groupRows (keptRows t) k :=
      List.mem_filter.mpr ⟨hr, by simp [hkey]⟩
    have hgne : groupRows (keptRows t) k ≠ [] := by
      intro hempty
      rw [hempty] at hrg
      exact List.not_mem_nil r hrg
    refine ⟨hgne, rfl, ?_⟩
    apply groupMean_unit
    · intro hemp
      rw [List.map_eq_nil_iff] at hemp
      exact hgne hemp
    · intro c hc
      obtain ⟨r', hr', rfl⟩ := List.mem_map.mp hc
      have hr'rows : r' ∈ t.rows :=
        (List.mem_filter.mp (List.mem_filter.mp hr').1).1
      exact hflags r' hr'rows

/-- Witness for C3: the sample flagged table aggregates to two groups with
rates 0 and 1, both inside [0, 1]. -/
theorem rate_aggregator_spec_witness :
    aggregate_monthly_rates exAggTable = .ok exAggOut ∧
    ∀ rr ∈ exAggOut, ∃ q, rr.rate = some q ∧ 0 ≤ q ∧ q ≤ 1 := by
  have hkeys : aggKeys exAggTable = [(2007, 3, 0), (2007, 3, 1)] := by decide
  have hg0 : groupRows (keptRows exAggTable) (2007, 3, 0) =
      [{ exRecRow with own_ill_absent := Cell.iv 0, is_parent := Cell.iv 0 }] := by
    decide
  have hg1 : groupRows (keptRows exAggTable) (2007, 3, 1) =
      [{ exRecRow with own_ill_absent := Cell.iv 1, is_parent := Cell.iv 1 }] := by
    decide
  have hval : aggRates exAggTable = exAggOut := by
    unfold aggRates
    rw [hkeys]
    simp only [List.map_cons, List.map_nil]
    rw [hg0, hg1]
    simp only [List.map_cons, List.map_nil]
    simp [exAggOut, groupMean, toNum, List.filterMap, RateRow.mk.injEq]
  have h : aggregate_monthly_rates exAggTable = .ok exAggOut := by
    rw [aggregate_ok exAggTable rfl rfl rfl rfl rfl rfl, hval]
  refine ⟨h, ?_⟩
  intro rr hrr
  exact ((rate_aggregator_spec exAggTable exAggOut h (by decide)).2.2.2 rr hrr).2.2

/-- C10: a row whose EMPSTAT or AGE cell is null or malformed is read as 0
there, fails the eligibility filter (0 is neither in {10, 12} nor in
[25, 49]), is not among the kept rows, and so contributes to no group of
the Rate Aggregator. -/
theorem aggregator_null_cells (t : Table) (r : Row) (hr : r ∈ t.rows)
    (h : toNum r.EMPSTAT = none ∨ toNum r.AGE = none) :
    eligibleRow r = false ∧ r ∉ keptRows t ∧
    ∀ k, r ∉ groupRows (keptRows t) k := by
  have hel : eligibleRow r = false := by
    unfold eligibleRow
    apply decide_eq_false
    rintro ⟨hemp, hage1, hage2⟩
    rcases h with hE | hA
    · rw [hE] at hemp
      rcases hemp with h10 | h12
      · simp at h10
      · simp at h12
    · rw [hA] at hage1
      simp at hage1
  have hnk : r ∉ keptRows t := by
    intro hmem
    have hm := (List.mem_filter.mp hmem).2
    rw [hel] at hm
    exact Bool.noConfusion hm
  exact ⟨hel, hnk, fun k hmem => hnk (List.mem_filter.mp hmem).1⟩

/-- Witness for C10: the sample table's fourth row has an unparseable
EMPSTAT and is filtered out. -/
theorem aggregator_null_cells_witness :
    eligibleRow exNullEmpRow = false ∧ exNullEmpRow ∉ keptRows exAggTable :=
  ⟨(aggregator_null_cells exAggTable exNullEmpRow (by decide) (Or.inl rfl)).1,
    (aggregator_null_cells exAggTable exNullEmpRow (by decide) (Or.inl rfl)).2.1⟩

/-- C8: `run_monthlevel_ols` fits the formula
`rate ~ is_parent * (P2 + P3) + C(MONTH)` on the period-tagged rate table
— an intercept, calendar-month fixed effects, the main effects is_parent,
P2 and P3, and the interaction products is_parent·P2 and is_parent·P3,
with P2/P3 the shared Period Tagger indicators of the row's year — and
clusters the standard errors on the month-index key `YEAR*12 + MONTH`. -/
theorem monthlevel_ols_spec (rates : List RateRow) :
    (run_monthlevel_ols rates).formula = "rate ~ is_parent * (P2 + P3) + C(MONTH)" ∧
    (run_monthlevel_ols rates).response = rates.map (fun r => r.rate) ∧
    (run_monthlevel_ols rates).design = rates.map (fun r => regressorsOf (tagRateRow r)) ∧
    (run_monthlevel_ols rates).clusterGroups = rates.map (fun r => r.YEAR * 12 + r.MONTH) ∧
    ∀ r ∈ rates,
      regressorsOf (tagRateRow r) =
        { const := 1
          monthFE := r.MONTH
          is_parent := (r.is_parent : ℚ)
          P2 := (p2val (some r.YEAR) : ℚ)
          P3 := (p3val (some r.YEAR) : ℚ)
          is_parent_x_P2 := (r.is_parent : ℚ) * (p2val (some r.YEAR) : ℚ)
          is_parent_x_P3 := (r.is_parent : ℚ) * (p3val (some r.YEAR) : ℚ) } ∧
      (tagRateRow r).P1 = p1val (some r.YEAR) ∧
      (tagRateRow r).P2 = p2val (some r.YEAR) ∧
      (tagRateRow r).P3 = p3val (some r.YEAR) ∧
      (tagRateRow r).month_id = r.YEAR * 12 + r.MONTH := by
  refine ⟨rfl, ?_, ?_, ?_, ?_⟩
  · simp only [run_monthlevel_ols, List.map_map]
    simp [Function.comp]
    intro a _
    rfl
  · simp [run_monthlevel_ols, List.map_map, Function.comp]
  · simp [run_monthlevel_ols, List.map_map, Function.comp, tagRateRow]
  · intro r _
    exact ⟨rfl, rfl, rfl, rfl, rfl⟩

/-- Witness for C8 on a one-row rate table (May 2010, parents): P2 = 1,
the is_parent·P2 interaction is 1, and the cluster key is 2010·12 + 5. -/
theorem monthlevel_ols_spec_witness :
    (run_monthlevel_ols exRates).formula = "rate ~ is_parent * (P2 + P3) + C(MONTH)" ∧
    (run_monthlevel_ols exRates).clusterGroups = [24125] ∧
    (regressorsOf (tagRateRow exRateRow)).is_parent_x_P2 = 1 := by
  have h := monthlevel_ols_spec exRates
  refine ⟨h.1, ?_, ?_⟩
  · rw [h.2.2.2.1]
    decide
  · have hr := h.2.2.2.2 exRateRow (by simp [exRates])
    rw [hr.1]
    norm_num [p2val, exRateRow]

end CPS
